import Mathlib

/-!
Verification of the MySQL Router core against its specification.

The definitions below are a shallow embedding of the relevant source files:

* `src/src/metadata_cache/src/cluster_metadata.cc`
  (`check_replicaset_status`, `update_replicaset_status`, the row consumer
  of `fetch_instances_from_metadata_server`)
* `src/src/routing/src/mysql_routing.cc`
  (`check_client_errors_time` and the admission check of `start_acceptor`)
* `src/mysql_harness/harness/src/keyring/keyring_manager.cc`
  (`MasterKeyFile::save`, `MasterKeyFile::load`)
* `src/mysql_harness/harness/src/random_generator.cc`
  (`generate_identifier`, `generate_strong_password`)

Machine integers are modelled as `Nat`/`Int` with explicit reductions
modulo `2 ^ w` in the places where the C++ code performs conversions
between integer types.
-/

namespace RouterModel

/-! ## Data model of the metadata cache (cluster_metadata.cc) -/

/-- `metadata_cache::ServerMode`. -/
inductive ServerMode
  | ReadWrite
  | ReadOnly
  | Unavailable
deriving DecidableEq, Repr

/-- `metadata_cache::ReplicasetStatus`. -/
inductive ReplicasetStatus
  | AvailableWritable
  | AvailableReadOnly
  | Unavailable
deriving DecidableEq, Repr

/-- `GroupReplicationMember::State` (all five states used by the switch in
`check_replicaset_status`). -/
inductive GRState
  | Online
  | Recovering
  | Unreachable
  | Offline
  | Other
deriving DecidableEq, Repr

/-- `GroupReplicationMember::Role`. -/
inductive GRRole
  | Primary
  | Secondary
deriving DecidableEq, Repr

/-- `GroupReplicationMember` as consumed by `check_replicaset_status`. -/
structure GroupReplicationMember where
  host : String
  port : Nat
  state : GRState
  role : GRRole
deriving DecidableEq, Repr

/-- `metadata_cache::ManagedInstance`.  The `weight` column is a float in the
source (`std::strtof`); it is kept as the raw nullable column string here
because no claim depends on its numeric value.  `port` and `xport` are stored
through `static_cast<unsigned int>` in the source, modelled as `Nat` reduced
mod `2 ^ 32` at the cast sites. -/
structure ManagedInstance where
  replicaset_name : String
  mysql_server_uuid : String
  role : String
  weight : Option String
  version_token : Nat
  location : String
  host : String
  port : Nat
  xport : Nat
  mode : ServerMode
deriving DecidableEq, Repr

/-- `metadata_cache::ManagedReplicaSet`. -/
structure ManagedReplicaSet where
  name : String
  members : List ManagedInstance
  single_primary_mode : Bool
deriving DecidableEq, Repr

/-- The status mapping `std::map<std::string, GroupReplicationMember>`:
an association list from server UUID to the reported member, with unique keys
in any value actually produced by `fetch_group_replication_members`. -/
abbrev StatusMap := List (String × GroupReplicationMember)

/-! ## check_replicaset_status (cluster_metadata.cc lines 239-326)

The C++ loop over `instances` does three things per member: set
`member.mode` from the status lookup, count online members, and record
whether a primary was seen.  `reconcile_one` is that loop body, returning
the updated member together with its contribution to `online_count` and to
`have_primary_instance`. -/

/-- Loop body of `check_replicaset_status`: one catalog member checked
against the status map (`member_status.find(member.mysql_server_uuid)` and
the nested switch on state and role). -/
def reconcile_one (member_status : StatusMap) (member : ManagedInstance) :
    ManagedInstance × Nat × Bool :=
  match member_status.lookup member.mysql_server_uuid with
  | some st =>
    match st.state, st.role with
    | GRState.Online, GRRole.Primary =>
        ({ member with mode := ServerMode.ReadWrite }, 1, true)
    | GRState.Online, GRRole.Secondary =>
        ({ member with mode := ServerMode.ReadOnly }, 1, false)
    | _, _ => ({ member with mode := ServerMode.Unavailable }, 0, false)
  | none => ({ member with mode := ServerMode.Unavailable }, 0, false)

/-- `ClusterMetadata::check_replicaset_status`: updates every member's mode,
counts online members, and derives the replicaset status from the quorum test
`online_count > member_status.size() / 2` and `have_primary_instance`. -/
def check_replicaset_status (instances : List ManagedInstance)
    (member_status : StatusMap) : List ManagedInstance × ReplicasetStatus :=
  let step := instances.map (reconcile_one member_status)
  let online_count := (step.map (fun s => s.2.1)).sum
  let have_primary_instance := step.any (fun s => s.2.2)
  (step.map Prod.fst,
   if online_count > member_status.length / 2 then
     if have_primary_instance then ReplicasetStatus.AvailableWritable
     else ReplicasetStatus.AvailableReadOnly
   else ReplicasetStatus.Unavailable)

/-! Claim-side definitions, written from the words of the specification,
to be compared with the source-side `check_replicaset_status`. -/

/-- Mode assignment as the specification words it: `Online + Primary` is
`ReadWrite`, `Online + Secondary` is `ReadOnly`, the four other states are
`Unavailable`, and a UUID absent from the mapping is `Unavailable`. -/
def specMode (member_status : StatusMap) (uuid : String) : ServerMode :=
  match member_status.lookup uuid with
  | some st =>
    match st.state, st.role with
    | GRState.Online, GRRole.Primary => ServerMode.ReadWrite
    | GRState.Online, GRRole.Secondary => ServerMode.ReadOnly
    | _, _ => ServerMode.Unavailable
  | none => ServerMode.Unavailable

/-- Whether a catalog member is reported `Online` by the status mapping. -/
def specReportedOnline (member_status : StatusMap) (m : ManagedInstance) : Bool :=
  match member_status.lookup m.mysql_server_uuid with
  | some st => st.state = GRState.Online
  | none => false

/-- The specification's `online_count`: the number of catalog members
reported `Online`. -/
def specOnlineCount (instances : List ManagedInstance)
    (member_status : StatusMap) : Nat :=
  (instances.filter (specReportedOnline member_status)).length

/-- The specification's "at least one `Online` member has role `Primary`". -/
def specHasPrimary (instances : List ManagedInstance)
    (member_status : StatusMap) : Prop :=
  ∃ m ∈ instances, ∃ st, member_status.lookup m.mysql_server_uuid = some st ∧
    st.state = GRState.Online ∧ st.role = GRRole.Primary

lemma reconcile_one_fst (member_status : StatusMap) (m : ManagedInstance) :
    (reconcile_one member_status m).1 =
      { m with mode := specMode member_status m.mysql_server_uuid } := by
  unfold reconcile_one specMode
  rcases h : member_status.lookup m.mysql_server_uuid with _ | st
  · rfl
  · rcases st with ⟨h', p', s', r'⟩
    cases s' <;> cases r' <;> rfl

lemma reconcile_one_count (member_status : StatusMap) (m : ManagedInstance) :
    (reconcile_one member_status m).2.1 =
      if specReportedOnline member_status m then 1 else 0 := by
  unfold reconcile_one specReportedOnline
  rcases h : member_status.lookup m.mysql_server_uuid with _ | st
  · rfl
  · rcases st with ⟨h', p', s', r'⟩
    cases s' <;> cases r' <;> simp

lemma reconcile_one_prim (member_status : StatusMap) (m : ManagedInstance) :
    (reconcile_one member_status m).2.2 = true ↔
      ∃ st, member_status.lookup m.mysql_server_uuid = some st ∧
        st.state = GRState.Online ∧ st.role = GRRole.Primary := by
  unfold reconcile_one
  rcases h : member_status.lookup m.mysql_server_uuid with _ | st
  · simp
  · rcases st with ⟨h', p', s', r'⟩
    cases s' <;> cases r' <;> simp

lemma check_online_count (instances : List ManagedInstance)
    (member_status : StatusMap) :
    ((instances.map (reconcile_one member_status)).map (fun s => s.2.1)).sum =
      specOnlineCount instances member_status := by
  induction instances with
  | nil => rfl
  | cons m t ih =>
    simp only [List.map_cons, List.sum_cons, ih, specOnlineCount]
    rw [reconcile_one_count]
    by_cases h : specReportedOnline member_status m
    · simp only [h, if_true, specOnlineCount, List.filter_cons, List.length_cons]
      omega
    · simp [h, specOnlineCount, List.filter_cons]

lemma check_has_primary (instances : List ManagedInstance)
    (member_status : StatusMap) :
    ((instances.map (reconcile_one member_status)).any (fun s => s.2.2)) = true ↔
      specHasPrimary instances member_status := by
  simp only [List.any_eq_true, List.mem_map]
  unfold specHasPrimary
  constructor
  · rintro ⟨s, ⟨m, hm, rfl⟩, hp⟩
    exact ⟨m, hm, (reconcile_one_prim member_status m).1 hp⟩
  · rintro ⟨m, hm, hp⟩
    exact ⟨_, ⟨m, hm, rfl⟩, (reconcile_one_prim member_status m).2 hp⟩

/-- Claim C1: after `check_replicaset_status`, each catalog member found in
the status mapping gets mode `ReadWrite` when `Online`/`Primary`, `ReadOnly`
when `Online`/`Secondary`, `Unavailable` for the states `Recovering`,
`Unreachable`, `Offline`, `Other`; a member whose UUID is absent from the
mapping gets mode `Unavailable`.  Stated as: the returned member list is the
input list with each mode replaced by the specification's mode function (all
other fields unchanged). -/
theorem c1_check_replicaset_status_modes (instances : List ManagedInstance)
    (member_status : StatusMap) :
    (check_replicaset_status instances member_status).1 =
      instances.map (fun m =>
        { m with mode := specMode member_status m.mysql_server_uuid }) := by
  unfold check_replicaset_status
  simp only [List.map_map]
  exact List.map_congr_left (fun m _ => reconcile_one_fst member_status m)

/-- Claim C2: `check_replicaset_status` returns `AvailableWritable` exactly
when `online_count > m / 2` (with `m` the size of the status mapping) and at
least one `Online` member has role `Primary`; `AvailableReadOnly` exactly
when `online_count > m / 2` and no `Online` member is `Primary`; otherwise
`Unavailable`. -/
theorem c2_check_replicaset_status_quorum (instances : List ManagedInstance)
    (member_status : StatusMap) :
    ((check_replicaset_status instances member_status).2 =
        ReplicasetStatus.AvailableWritable ↔
      specOnlineCount instances member_status > member_status.length / 2 ∧
        specHasPrimary instances member_status) ∧
    ((check_replicaset_status instances member_status).2 =
        ReplicasetStatus.AvailableReadOnly ↔
      specOnlineCount instances member_status > member_status.length / 2 ∧
        ¬ specHasPrimary instances member_status) ∧
    ((check_replicaset_status instances member_status).2 =
        ReplicasetStatus.Unavailable ↔
      ¬ specOnlineCount instances member_status > member_status.length / 2) := by
  unfold check_replicaset_status
  simp only [check_online_count]
  by_cases hq : specOnlineCount instances member_status > member_status.length / 2
  · cases hb : (instances.map (reconcile_one member_status)).any (fun s => s.2.2) with
    | false =>
      have hp : ¬ specHasPrimary instances member_status := by
        intro h
        have hb' := (check_has_primary instances member_status).2 h
        rw [hb] at hb'
        exact Bool.noConfusion hb'
      simp [hq, hb, hp]
    | true =>
      have hp : specHasPrimary instances member_status :=
        (check_has_primary instances member_status).1 hb
      simp [hq, hb, hp]
  · simp [hq]

/-! ## update_replicaset_status (cluster_metadata.cc lines 151-237)

The loop iterates over the replicaset's members in catalog order.  For each
candidate it either reuses the metadata connection or opens a new one (which
may fail), then queries the candidate for the group-replication member
status (which may throw).  The outcome of these I/O steps for candidate `i`
is abstracted as an oracle value `FetchOutcome`; everything after the query
(the call to `check_replicaset_status`, the quorum switch, the final
clearing of the member list) is modelled exactly. -/

/-- Outcome of contacting the `i`-th candidate member: the connection could
not be established (`do_connect` failed), the status query threw
(`fetch_group_replication_members`), or it succeeded and returned a status
map plus the reported `single_primary_mode`. -/
inductive FetchOutcome
  | connectFail
  | queryError
  | ok (member_status : StatusMap) (single_primary : Bool)

/-- The member-iteration loop of `update_replicaset_status`.  `fuel` is the
number of candidates still to try (initially the length of the member list,
which `check_replicaset_status` preserves); when the loop runs past the last
candidate without finding quorum, the member list is cleared. -/
def update_replicaset_status_go (f : Nat → FetchOutcome) :
    Nat → Nat → ManagedReplicaSet → ManagedReplicaSet
  | 0, _, rs => { rs with members := [] }
  | fuel + 1, i, rs =>
    match f i with
    | FetchOutcome.connectFail => update_replicaset_status_go f fuel (i + 1) rs
    | FetchOutcome.queryError => update_replicaset_status_go f fuel (i + 1) rs
    | FetchOutcome.ok member_status single_primary =>
      let res := check_replicaset_status rs.members member_status
      match res.2 with
      | ReplicasetStatus.Unavailable =>
          update_replicaset_status_go f fuel (i + 1) { rs with members := res.1 }
      | _ => { rs with members := res.1, single_primary_mode := single_primary }

/-- `ClusterMetadata::update_replicaset_status`, with the per-candidate I/O
outcomes supplied by the oracle `f`. -/
def update_replicaset_status (f : Nat → FetchOutcome)
    (rs : ManagedReplicaSet) : ManagedReplicaSet :=
  update_replicaset_status_go f rs.members.length 0 rs

lemma check_replicaset_status_uuids (instances : List ManagedInstance)
    (member_status : StatusMap) :
    ((check_replicaset_status instances member_status).1).map
        (fun m => m.mysql_server_uuid) =
      instances.map (fun m => m.mysql_server_uuid) := by
  unfold check_replicaset_status
  simp only [List.map_map]
  exact List.map_congr_left (fun m _ => by
    rw [Function.comp_apply, Function.comp_apply, reconcile_one_fst])

/-- The status returned by `check_replicaset_status` depends only on the
UUIDs of the catalog members (mode updates between candidate iterations do
not change the verdict). -/
lemma check_replicaset_status_congr (instances instances' : List ManagedInstance)
    (member_status : StatusMap)
    (h : instances.map (fun m => m.mysql_server_uuid) =
         instances'.map (fun m => m.mysql_server_uuid)) :
    (check_replicaset_status instances member_status).2 =
      (check_replicaset_status instances' member_status).2 := by
  have hco : ∀ l l' : List ManagedInstance,
      l.map (fun m => m.mysql_server_uuid) = l'.map (fun m => m.mysql_server_uuid) →
      ((l.map (reconcile_one member_status)).map (fun s => s.2.1)).sum =
        ((l'.map (reconcile_one member_status)).map (fun s => s.2.1)).sum ∧
      (l.map (reconcile_one member_status)).any (fun s => s.2.2) =
        (l'.map (reconcile_one member_status)).any (fun s => s.2.2) := by
    intro l
    induction l with
    | nil =>
      intro l' h'
      cases l' with
      | nil => exact ⟨rfl, rfl⟩
      | cons a t => exact absurd h' (by simp)
    | cons a t ih =>
      intro l' h'
      cases l' with
      | nil => exact absurd h' (by simp)
      | cons a' t' =>
        simp only [List.map_cons, List.cons.injEq] at h'
        obtain ⟨huuid, htail⟩ := h'
        obtain ⟨hsum, hany⟩ := ih t' htail
        have hone : (reconcile_one member_status a).2 =
            (reconcile_one member_status a').2 := by
          unfold reconcile_one
          rw [huuid]
          rcases member_status.lookup a'.mysql_server_uuid with _ | st
          · rfl
          · rcases st with ⟨h', p', s', r'⟩
            cases s' <;> cases r' <;> rfl
        constructor
        · simp only [List.map_cons, List.sum_cons, hsum, hone]
        · simp only [List.map_cons, List.any_cons, hany, hone]
  obtain ⟨hsum, hany⟩ := hco instances instances' h
  unfold check_replicaset_status
  simp only [hsum, hany]

/-- Claim C3: if every candidate member either fails to connect, errors on
the status query, or reports a status map under which the replicaset has no
quorum (`check_replicaset_status` yields `Unavailable`), then
`update_replicaset_status` returns the replicaset with an empty member
list.  (The hypothesis states the no-quorum verdict against the original
member list; the congruence lemma above shows the verdict is invariant
under the mode updates of earlier iterations.) -/
theorem c3_no_quorum_clears_members (f : Nat → FetchOutcome)
    (rs : ManagedReplicaSet)
    (h : ∀ i, i < rs.members.length →
      f i = FetchOutcome.connectFail ∨ f i = FetchOutcome.queryError ∨
      ∃ ms sp, f i = FetchOutcome.ok ms sp ∧
        (check_replicaset_status rs.members ms).2 = ReplicasetStatus.Unavailable) :
    (update_replicaset_status f rs).members = [] := by
  suffices hgen : ∀ fuel i rs', i + fuel = rs.members.length →
      rs'.members.map (fun m => m.mysql_server_uuid) =
        rs.members.map (fun m => m.mysql_server_uuid) →
      (update_replicaset_status_go f fuel i rs').members = [] by
    exact hgen rs.members.length 0 rs (by omega) rfl
  intro fuel
  induction fuel with
  | zero => intro i rs' _ _; rfl
  | succ n ih =>
    intro i rs' hlen huuid
    have hi : i < rs.members.length := by omega
    rcases h i hi with hc | hc | ⟨ms, sp, hc, hstat⟩
    · rw [update_replicaset_status_go, hc]
      exact ih (i + 1) rs' (by omega) huuid
    · rw [update_replicaset_status_go, hc]
      exact ih (i + 1) rs' (by omega) huuid
    · rw [update_replicaset_status_go, hc]
      have hstat' : (check_replicaset_status rs'.members ms).2 =
          ReplicasetStatus.Unavailable := by
        rw [check_replicaset_status_congr rs'.members rs.members ms huuid, hstat]
      simp only [hstat']
      exact ih (i + 1) _ (by omega)
        (by rw [check_replicaset_status_uuids]; exact huuid)

/-- A concrete one-member replicaset whose only candidate cannot be
reached. -/
def rsC3 : ManagedReplicaSet :=
  { name := "default",
    members := [{ replicaset_name := "default", mysql_server_uuid := "uuid-1",
                  role := "HA", weight := none, version_token := 0,
                  location := "", host := "localhost", port := 3310,
                  xport := 33100, mode := ServerMode.Unavailable }],
    single_primary_mode := true }

theorem c3_no_quorum_clears_members_witness :
    (update_replicaset_status (fun _ => FetchOutcome.connectFail) rsC3).members
      = [] :=
  c3_no_quorum_clears_members (fun _ => FetchOutcome.connectFail) rsC3
    (fun _ _ => Or.inl rfl)

/-! ## Error accounting (mysql_routing.cc)

`conn_error_counters_` maps a 16-byte client IP to a counter and the unix
timestamp of the last attempt.  The claims are per entry, so the model works
on one `ConnErrorEntry` directly. -/

/-- One value of `conn_error_counters_`: `count` and `last_attempt`
(seconds since the epoch). -/
structure ConnErrorEntry where
  count : Nat
  last_attempt : Nat
deriving DecidableEq, Repr

/-- The `size_t timediff = curtime - last_attempt` computation: the signed
64-bit `time_t` difference converted to the unsigned 64-bit `size_t`. -/
def timeDiff (now last : Nat) : Nat :=
  (((now : Int) - (last : Int)) % (2 ^ 64 : Int)).toNat

/-- `MySQLRouting::check_client_errors_time` (mysql_routing.cc lines
129-141): with `max_connect_errors_timeout_ == 0` it returns `false`
without touching the entry; otherwise, when `timediff` exceeds the timeout
it zeroes the count and returns `true`, else it returns `false`.  Returns
the flag together with the (possibly updated) entry. -/
def check_client_errors_time (max_connect_errors_timeout : Nat) (now : Nat)
    (e : ConnErrorEntry) : Bool × ConnErrorEntry :=
  if max_connect_errors_timeout = 0 then (false, e)
  else if timeDiff now e.last_attempt > max_connect_errors_timeout then
    (true, { e with count := 0 })
  else (false, e)

/-- Decision taken by the acceptor for one accepted client. -/
inductive AdmissionDecision
  | reject (code : Nat) (message : String) (sqlstate : String)
  | proceed
deriving DecidableEq, Repr

/-- The blocked-client admission check of `MySQLRouting::start_acceptor`
(mysql_routing.cc lines 483-492): when the client's error count has reached
`max_connect_errors_` and `check_client_errors_time` does not reset it, the
client is answered with error packet 1129/`HY000` and the socket is closed
without launching a worker; in every other case the acceptor proceeds. -/
def acceptor_admission_check (max_connect_errors max_connect_errors_timeout : Nat)
    (now : Nat) (peer : String) (e : ConnErrorEntry) :
    AdmissionDecision × ConnErrorEntry :=
  if e.count ≥ max_connect_errors then
    let r := check_client_errors_time max_connect_errors_timeout now e
    if r.1 then (AdmissionDecision.proceed, r.2)
    else
      (AdmissionDecision.reject 1129
        ("Too many connection errors from " ++ peer) "HY000", r.2)
  else (AdmissionDecision.proceed, e)

lemma timeDiff_eq (now last : Nat) (h1 : last ≤ now) (h2 : now - last < 2 ^ 64) :
    timeDiff now last = now - last := by
  unfold timeDiff
  have hcast : (now : Int) - (last : Int) = ((now - last : Nat) : Int) := by
    omega
  rw [hcast, Int.emod_eq_of_lt (by positivity) (by exact_mod_cast h2)]
  exact Int.toNat_natCast _

/-- Claim C5: `check_client_errors_time` resets the count to zero and
returns `true` exactly when the timeout is non-zero and `now - last_attempt`
strictly exceeds it; in every other case it returns `false` and leaves the
entry unchanged.  In particular `max_connect_errors_timeout = 0` never
resets. -/
theorem c5_check_client_errors_time (t now : Nat) (e : ConnErrorEntry)
    (h1 : e.last_attempt ≤ now) (h2 : now - e.last_attempt < 2 ^ 64) :
    (check_client_errors_time t now e = (true, { e with count := 0 }) ↔
      t ≠ 0 ∧ now - e.last_attempt > t) ∧
    (¬ (t ≠ 0 ∧ now - e.last_attempt > t) →
      check_client_errors_time t now e = (false, e)) ∧
    (t = 0 → check_client_errors_time t now e = (false, e)) := by
  unfold check_client_errors_time
  rw [timeDiff_eq now e.last_attempt h1 h2]
  by_cases h0 : t = 0
  · simp [h0]
  · by_cases hgt : now - e.last_attempt > t
    · simp [h0, hgt]
    · simp [h0, hgt]

theorem c5_check_client_errors_time_witness :
    (check_client_errors_time 5 100 ⟨3, 90⟩ = (true, { count := 0, last_attempt := 90 }) ↔
      (5 : Nat) ≠ 0 ∧ 100 - 90 > 5) ∧
    (¬ ((5 : Nat) ≠ 0 ∧ 100 - 90 > 5) →
      check_client_errors_time 5 100 ⟨3, 90⟩ = (false, ⟨3, 90⟩)) ∧
    ((5 : Nat) = 0 → check_client_errors_time 5 100 ⟨3, 90⟩ = (false, ⟨3, 90⟩)) :=
  c5_check_client_errors_time 5 100 ⟨3, 90⟩ (by decide) (by decide)

/-- Counterexample to claim C4 as stated: with `max_connect_errors = 1`,
`max_connect_errors_timeout = 0`, an entry `count = 1`, `last_attempt = 0`
and `now = 10`, the acceptor rejects the client with the 1129 packet,
although `now - last_attempt ≤ max_connect_errors_timeout` is false — the
claim would require the client not to be rejected. -/
theorem c4_counterexample :
    (acceptor_admission_check 1 0 10 "10.0.0.1" ⟨1, 0⟩).1 =
      AdmissionDecision.reject 1129
        "Too many connection errors from 10.0.0.1" "HY000" ∧
    ¬ ((1 : Nat) ≥ 1 ∧ 10 - 0 ≤ (0 : Nat)) := by
  constructor
  · rfl
  · decide

/-- Claim C4 as amended: the acceptor rejects the accepted client with
error packet `(1129, "HY000", "Too many connection errors from <peer>")`
and no worker is launched exactly when `count ≥ max_connect_errors` and
either `max_connect_errors_timeout = 0` or
`now - last_attempt ≤ max_connect_errors_timeout`; otherwise the client is
not rejected on this ground. -/
theorem c4_acceptor_blocks_amended (maxErr t now : Nat) (peer : String)
    (e : ConnErrorEntry) (h1 : e.last_attempt ≤ now)
    (h2 : now - e.last_attempt < 2 ^ 64) :
    ((acceptor_admission_check maxErr t now peer e).1 =
        AdmissionDecision.reject 1129
          ("Too many connection errors from " ++ peer) "HY000" ↔
      e.count ≥ maxErr ∧ (t = 0 ∨ now - e.last_attempt ≤ t)) ∧
    ((acceptor_admission_check maxErr t now peer e).1 =
        AdmissionDecision.proceed ↔
      ¬ (e.count ≥ maxErr ∧ (t = 0 ∨ now - e.last_attempt ≤ t))) := by
  unfold acceptor_admission_check check_client_errors_time
  rw [timeDiff_eq now e.last_attempt h1 h2]
  by_cases hc : e.count ≥ maxErr
  · by_cases h0 : t = 0
    · simp [hc, h0]
    · by_cases hgt : now - e.last_attempt > t
      · have : ¬ (now - e.last_attempt ≤ t) := by omega
        simp [hc, h0, hgt, this]
      · have : now - e.last_attempt ≤ t := by omega
        simp [hc, h0, hgt, this]
  · simp [hc]

theorem c4_acceptor_blocks_amended_witness :
    ((acceptor_admission_check 1 600 1000 "10.0.0.1" ⟨2, 900⟩).1 =
        AdmissionDecision.reject 1129
          ("Too many connection errors from " ++ "10.0.0.1") "HY000" ↔
      (2 : Nat) ≥ 1 ∧ ((600 : Nat) = 0 ∨ 1000 - 900 ≤ (600 : Nat))) ∧
    ((acceptor_admission_check 1 600 1000 "10.0.0.1" ⟨2, 900⟩).1 =
        AdmissionDecision.proceed ↔
      ¬ ((2 : Nat) ≥ 1 ∧ ((600 : Nat) = 0 ∨ 1000 - 900 ≤ (600 : Nat)))) :=
  c4_acceptor_blocks_amended 1 600 1000 "10.0.0.1" ⟨2, 900⟩ (by decide) (by decide)

/-! ## The row consumer of fetch_instances_from_metadata_server
(cluster_metadata.cc lines 398-454)

A result row is a sequence of eight nullable column strings.  The consumer
builds a `ManagedInstance` from it; an address that fails to parse logs a
warning and skips the row, a wrong column count or a `version_token` parse
failure aborts the fetch.  `strtoi_checked` lives in
`src/router/src/utils.cc`, which is not among the provided sources, so the
consumer is parameterised over it: `pi s` is `.ok z` when
`strtoi_checked(s)` returns the int `z` and `.error ()` when it throws. -/

/-- `get_string`: a null column becomes the empty string. -/
def get_string : Option String → String
  | none => ""
  | some s => s

/-- `static_cast<unsigned int>` applied to an `int` value. -/
def castUInt (z : Int) : Nat := (z % (2 ^ 32 : Int)).toNat

/-- The classic-address branch: split `host[:port]` at the first `':'`;
without a colon the port defaults to 3306, with one the port substring goes
through `strtoi_checked` (an exception skips the row). -/
def parseClassicAddr (pi : String → Except Unit Int) (uri : String) :
    Except Unit (String × Nat) :=
  match uri.toList.findIdx? (fun c => c = ':') with
  | some p =>
    match pi (String.mk (uri.toList.drop (p + 1))) with
    | Except.ok z => Except.ok (String.mk (uri.toList.take p), castUInt z)
    | Except.error _ => Except.error ()
  | none => Except.ok (uri, 3306)

/-- The x-address branch: `row[7] && *row[7]` guards it; when the column is
null or empty, `xport = port * 10` (unsigned arithmetic); otherwise the
column is split at the first `':'` — overwriting `host` — with `xport`
defaulting to 33060 when no colon is present.  Returns the final
`(host, xport)`. -/
def applyXAddr (pi : String → Except Unit Int) (xcol : Option String)
    (host : String) (port : Nat) : Except Unit (String × Nat) :=
  match xcol with
  | some u =>
    if u = "" then Except.ok (host, port * 10 % 2 ^ 32)
    else
      match u.toList.findIdx? (fun c => c = ':') with
      | some p =>
        match pi (String.mk (u.toList.drop (p + 1))) with
        | Except.ok z => Except.ok (String.mk (u.toList.take p), castUInt z)
        | Except.error _ => Except.error ()
      | none => Except.ok (u, 33060)
  | none => Except.ok (host, port * 10 % 2 ^ 32)

/-- The row consumer (`result_processor`): `.error ()` models an exception
that aborts the whole fetch (wrong arity, `version_token` parse failure),
`.ok none` a row skipped with a warning, and `.ok (some s)` the instance
appended to its replicaset.  The instance's initial `mode` is the
default-constructed value of the (unprovided) header; no claim depends on
it. -/
def processRow (pi : String → Except Unit Int) (row : List (Option String)) :
    Except Unit (Option ManagedInstance) :=
  if row.length ≠ 8 then Except.error ()
  else
    match (match row.getD 4 none with
           | some s => (pi s).map castUInt
           | none => Except.ok 0) with
    | Except.error _ => Except.error ()
    | Except.ok vt =>
      match parseClassicAddr pi (get_string (row.getD 6 none)) with
      | Except.error _ => Except.ok none
      | Except.ok (chost, cport) =>
        match applyXAddr pi (row.getD 7 none) chost cport with
        | Except.error _ => Except.ok none
        | Except.ok (host, xport) =>
          Except.ok (some
            { replicaset_name := get_string (row.getD 0 none),
              mysql_server_uuid := get_string (row.getD 1 none),
              role := get_string (row.getD 2 none),
              weight := row.getD 3 none,
              version_token := vt,
              location := get_string (row.getD 5 none),
              host := host, port := cport, xport := xport,
              mode := ServerMode.Unavailable })

/-- Claim C6: for a well-formed row (one that yields an instance, with a
classic port in the TCP range), (a) a classic address without `':'` gives
port 3306; (b) a null or empty x-address column gives `xport = port * 10`;
(c) a non-empty x-address without `':'` gives `xport = 33060`. -/
theorem c6_address_defaults (pi : String → Except Unit Int)
    (r0 r1 r2 r5 caddr : String) (r3 r4 xcol : Option String)
    (inst : ManagedInstance)
    (hrow : processRow pi [some r0, some r1, some r2, r3, r4, some r5,
              some caddr, xcol] = Except.ok (some inst)) :
    (caddr.toList.findIdx? (fun c => c = ':') = none → inst.port = 3306) ∧
    ((xcol = none ∨ xcol = some "") → inst.port ≤ 65535 →
      inst.xport = inst.port * 10) ∧
    (∀ u, xcol = some u → u ≠ "" →
      u.toList.findIdx? (fun c => c = ':') = none → inst.xport = 33060) := by
  unfold processRow at hrow
  simp only [List.length_cons, List.length_nil] at hrow
  norm_num at hrow
  rcases hvt : (match r4 with
                | some s => (pi s).map castUInt
                | none => Except.ok 0) with _ | vt <;> rw [hvt] at hrow <;>
    dsimp only at hrow
  · exact absurd hrow (by simp)
  · rcases hcl : parseClassicAddr pi (get_string (some caddr)) with _ | ⟨chost, cport⟩ <;>
      rw [hcl] at hrow <;> dsimp only at hrow
    · exact absurd hrow (by simp)
    · rcases hx : applyXAddr pi xcol chost cport with _ | ⟨host, xport⟩ <;>
        rw [hx] at hrow <;> dsimp only at hrow
      · exact absurd hrow (by simp)
      · simp only [Except.ok.injEq, Option.some.injEq] at hrow
        subst hrow
        refine ⟨?_, ?_, ?_⟩
        · intro hnc
          unfold parseClassicAddr at hcl
          simp only [get_string, hnc] at hcl
          simp only [Except.ok.injEq, Prod.mk.injEq] at hcl
          exact hcl.2.symm
        · intro hnone hle
          have hxp : xport = cport * 10 % 2 ^ 32 := by
            rcases hnone with h | h
            · rw [h] at hx
              simp only [applyXAddr, Except.ok.injEq, Prod.mk.injEq] at hx
              exact hx.2.symm
            · rw [h] at hx
              simp only [applyXAddr, if_pos, reduceIte, Except.ok.injEq,
                Prod.mk.injEq] at hx
              exact hx.2.symm
          simp only at hle ⊢
          rw [hxp, Nat.mod_eq_of_lt (by omega)]
        · intro u hu hne hnc
          rw [hu] at hx
          simp only [applyXAddr] at hx
          rw [if_neg hne, hnc] at hx
          simp only [Except.ok.injEq, Prod.mk.injEq] at hx
          exact hx.2.symm

/-- A decimal-digit parser used to instantiate `pi` in witnesses. -/
def piDec (s : String) : Except Unit Int :=
  if s.toList ≠ [] ∧ s.toList.all Char.isDigit then
    Except.ok (s.toList.foldl (fun a c => a * 10 + ((c.toNat : Int) - 48)) 0)
  else Except.error ()

/-- The instance produced from the row
`(default, uuid-1, HA, NULL, NULL, loc, "myhost", NULL)`. -/
def instC6 : ManagedInstance :=
  { replicaset_name := "default", mysql_server_uuid := "uuid-1", role := "HA",
    weight := none, version_token := 0, location := "loc", host := "myhost",
    port := 3306, xport := 33060, mode := ServerMode.Unavailable }

theorem c6_address_defaults_witness :
    (("myhost" : String).toList.findIdx? (fun c => c = ':') = none →
      instC6.port = 3306) ∧
    (((none : Option String) = none ∨ (none : Option String) = some "") →
      instC6.port ≤ 65535 → instC6.xport = instC6.port * 10) ∧
    (∀ u, (none : Option String) = some u → u ≠ "" →
      u.toList.findIdx? (fun c => c = ':') = none → instC6.xport = 33060) :=
  c6_address_defaults piDec "default" "uuid-1" "HA" "loc" "myhost"
    none none none instC6 (by rfl)

/-- Claim C10: when the x-address column is present, non-empty and parses
(first colon at index `p`, port substring accepted by `strtoi_checked`),
the produced instance's `host` is the host part of the x-address, while its
classic `port` is the one the classic-address branch produced. -/
theorem c10_xaddr_overwrites_host (pi : String → Except Unit Int)
    (r0 r1 r2 r5 caddr u : String) (r3 r4 : Option String) (p : Nat) (z : Int)
    (inst : ManagedInstance)
    (hne : u ≠ "")
    (hp : u.toList.findIdx? (fun c => c = ':') = some p)
    (hz : pi (String.mk (u.toList.drop (p + 1))) = Except.ok z)
    (hrow : processRow pi [some r0, some r1, some r2, r3, r4, some r5,
              some caddr, some u] = Except.ok (some inst)) :
    inst.host = String.mk (u.toList.take p) ∧
    ∃ chost, parseClassicAddr pi caddr = Except.ok (chost, inst.port) := by
  unfold processRow at hrow
  simp only [List.length_cons, List.length_nil] at hrow
  norm_num at hrow
  rcases hvt : (match r4 with
                | some s => (pi s).map castUInt
                | none => Except.ok 0) with _ | vt <;> rw [hvt] at hrow <;>
    dsimp only at hrow
  · exact absurd hrow (by simp)
  · rcases hcl : parseClassicAddr pi (get_string (some caddr)) with _ | ⟨chost, cport⟩ <;>
      rw [hcl] at hrow <;> dsimp only at hrow
    · exact absurd hrow (by simp)
    · rcases hx : applyXAddr pi (some u) chost cport with _ | ⟨host, xport⟩ <;>
        rw [hx] at hrow <;> dsimp only at hrow
      · exact absurd hrow (by simp)
      · simp only [Except.ok.injEq, Option.some.injEq] at hrow
        subst hrow
        simp only [applyXAddr] at hx
        rw [if_neg hne, hp] at hx
        dsimp only at hx
        rw [hz] at hx
        dsimp only at hx
        simp only [Except.ok.injEq, Prod.mk.injEq] at hx
        refine ⟨hx.1.symm, chost, ?_⟩
        simpa [get_string] using hcl

/-- The instance produced from the row
`(default, uuid-2, HA, NULL, NULL, loc, "ch:3307", "xh:33070")`. -/
def instC10 : ManagedInstance :=
  { replicaset_name := "default", mysql_server_uuid := "uuid-2", role := "HA",
    weight := none, version_token := 0, location := "loc", host := "xh",
    port := 3307, xport := 33070, mode := ServerMode.Unavailable }

theorem c10_xaddr_overwrites_host_witness :
    instC10.host = String.mk (("xh:33070" : String).toList.take 2) ∧
    ∃ chost, parseClassicAddr piDec "ch:3307" = Except.ok (chost, instC10.port) :=
  c10_xaddr_overwrites_host piDec "default" "uuid-2" "HA" "loc" "ch:3307"
    "xh:33070" none none 2 33070 instC10 (by decide) (by rfl) (by rfl)
    (by rfl)

/-! ## MasterKeyFile (keyring_manager.cc lines 74-181)

`save` writes the 5-byte signature `"MRKF\0"` and then, per entry, a
little-endian `uint32` length followed by the nul-terminated name and the
ciphertext.  `load` checks the signature and then loops
`while (!f.eof())`.  Because `eof()` only becomes true after a read has
already failed, the loop body runs once more after the last entry has been
consumed: the read into the *uninitialised* local `uint32_t length` fails
and leaves it indeterminate.  That indeterminate value is the parameter
`junk` below: `data` is resized to `junk` NUL bytes, so the iteration
either throws (`data.substr(1)` on an empty string when `junk = 0`) or
appends a spurious `("", junk - 1 NUL bytes)` entry. -/

/-- An entry of the master key file: name bytes and ciphertext bytes. -/
abbrev MKFEntry := List Nat × List Nat

/-- The 5 bytes of `kMasterKeyFileSignature` (`"MRKF"` plus its
terminator), as written and compared by `strncmp(..., sizeof)` . -/
def kMasterKeyFileSignatureBytes : List Nat := [77, 82, 75, 70, 0]

/-- A `uint32` serialised little-endian (the host order of the reference
platform). -/
def u32LE (n : Nat) : List Nat :=
  [n % 256, n / 256 % 256, n / 2 ^ 16 % 256, n / 2 ^ 24 % 256]

/-- The inverse of `u32LE` on a 4-byte buffer. -/
def u32FromLE (b : List Nat) : Nat :=
  b.getD 0 0 + b.getD 1 0 * 256 + b.getD 2 0 * 2 ^ 16 + b.getD 3 0 * 2 ^ 24

/-- The bytes `MasterKeyFile::save` writes for one entry:
`uint32 length = name.length() + value.length() + 1` (little-endian),
the name with its terminator, then the ciphertext. -/
def mkfEntryBytes (e : MKFEntry) : List Nat :=
  u32LE ((e.1.length + e.2.length + 1) % 2 ^ 32) ++ (e.1 ++ [0]) ++ e.2

/-- The file content produced by `MasterKeyFile::save`. -/
def masterKeyFile_save_bytes (entries : List MKFEntry) : List Nat :=
  kMasterKeyFileSignatureBytes ++ (entries.map mkfEntryBytes).flatten

inductive LoadError
  | invalidFile
  | readError
deriving DecidableEq, Repr

/-- One iteration's entry parse: `n = strlen(data.data())` takes the bytes
up to the first NUL (the `std::string` terminator stops `strlen` at
`data.size()` when none is present), and `v = data.substr(n.size() + 1)`
throws `std::out_of_range` — modelled as `none` — when `n.size() + 1`
exceeds `data.size()`. -/
def parseMKFEntry (data : List Nat) : Option MKFEntry :=
  let n := data.takeWhile (fun b => b ≠ 0)
  if n.length + 1 > data.length then none
  else some (n, data.drop (n.length + 1))

/-- Reading and parsing the `length`-byte payload of one entry.  A short
read stores the available bytes, leaves the NUL fill of the resized buffer
in place and puts the stream at eof (`none` continuation); a full read
leaves the loop running (`some` continuation). -/
def masterKeyFile_load_one (len : Nat) (rest : List Nat) :
    Except LoadError (MKFEntry × Option (List Nat)) :=
  if rest.length < len then
    match parseMKFEntry (rest ++ List.replicate (len - rest.length) 0) with
    | none => Except.error LoadError.readError
    | some e => Except.ok (e, none)
  else
    match parseMKFEntry (rest.take len) with
    | none => Except.error LoadError.readError
    | some e => Except.ok (e, some (rest.drop len))

/-- The `while (!f.eof())` loop of `MasterKeyFile::load` over the bytes
after the signature.  `junk` is the indeterminate value the uninitialised
`length` keeps when its read fails at end of file.  `fuel` only bounds the
recursion; the caller passes more iterations than the byte count can
sustain, so the `fuel = 0` case is never reached. -/
def masterKeyFile_load_go (junk : Nat) :
    Nat → List Nat → List MKFEntry → Except LoadError (List MKFEntry)
  | 0, _, _ => Except.error LoadError.readError
  | fuel + 1, rest, acc =>
    if rest.length < 4 then
      -- the length read fails (eof); `length` is the indeterminate `junk`,
      -- `data` is resized to `junk` NUL bytes and the data read is a no-op
      if junk = 0 then Except.error LoadError.readError
      else Except.ok (acc ++ [([], List.replicate (junk - 1) 0)])
    else
      match masterKeyFile_load_one (u32FromLE (rest.take 4)) (rest.drop 4) with
      | Except.error e => Except.error e
      | Except.ok (entry, none) => Except.ok (acc ++ [entry])
      | Except.ok (entry, some restNext) =>
          masterKeyFile_load_go junk fuel restNext (acc ++ [entry])

/-- `MasterKeyFile::load` on a file image: signature check, then the entry
loop. -/
def masterKeyFile_load (junk : Nat) (bytes : List Nat) :
    Except LoadError (List MKFEntry) :=
  if bytes.take 5 = kMasterKeyFileSignatureBytes then
    masterKeyFile_load_go junk (bytes.length + 1) (bytes.drop 5) []
  else Except.error LoadError.invalidFile

/-- The failing input for claim C7: one entry `("key", "val")`. -/
def mkfEntries0 : List MKFEntry := [([107, 101, 121], [118, 97, 108])]

/-- Claim C7 fails on the code: saving `[("key", "val")]` and loading the
file back never reproduces the entry list, whatever value the
uninitialised trailing length read takes — `load` either throws (the
`junk = 0` case) or appends a spurious empty-name entry, because the
`while (!f.eof())` loop body runs once more after the last entry. -/
theorem c7_master_key_roundtrip_fails (junk : Nat) :
    masterKeyFile_load junk (masterKeyFile_save_bytes mkfEntries0) ≠
      Except.ok mkfEntries0 := by
  cases junk with
  | zero =>
    intro h
    have heval : masterKeyFile_load 0 (masterKeyFile_save_bytes mkfEntries0) =
        Except.error LoadError.readError := rfl
    rw [heval] at h
    exact Except.noConfusion h
  | succ j =>
    intro h
    have heval : masterKeyFile_load (j + 1) (masterKeyFile_save_bytes mkfEntries0) =
        Except.ok (mkfEntries0 ++ [([], List.replicate j 0)]) := rfl
    rw [heval] at h
    have h2 : mkfEntries0 ++ [(([] : List Nat), List.replicate j 0)] = mkfEntries0 := by
      injection h
    have h3 := congrArg List.length h2
    simp [mkfEntries0] at h3

/-! ## The save operations of MasterKeyFile as a file-system trace
(keyring_manager.cc lines 112-136), for claim C8. -/

/-- File-system operations `MasterKeyFile::save` can perform. -/
inductive FsOp
  | openTrunc (path : String)
  | makePrivate (path : String)
  | writeBytes (data : List Nat)
  | rename (source : String) (target : String)
  | closeFile
deriving DecidableEq, Repr

/-- The three writes `save` performs for one entry. -/
def mkfEntryTrace (e : MKFEntry) : List FsOp :=
  [FsOp.writeBytes (u32LE ((e.1.length + e.2.length + 1) % 2 ^ 32)),
   FsOp.writeBytes (e.1 ++ [0]),
   FsOp.writeBytes e.2]

/-- The operation sequence of `MasterKeyFile::save`: open the target path
itself with truncation, tighten its permissions (`make_file_private`),
write the signature and the entries, close.  No temporary file and no
rename appear anywhere. -/
def masterKeyFile_save_trace (path : String) (entries : List MKFEntry) :
    List FsOp :=
  [FsOp.openTrunc path, FsOp.makePrivate path,
   FsOp.writeBytes kMasterKeyFileSignatureBytes]
  ++ (entries.map mkfEntryTrace).flatten ++ [FsOp.closeFile]

/-- `true` iff the operation is not a rename. -/
def isNotRename : FsOp → Bool
  | FsOp.rename _ _ => false
  | _ => true

/-- Counterexample to claim C8 as stated: saving the master key file for
the entry list `[("k", "v")]` opens the *target* path directly with
truncation as its very first operation, and the trace contains no rename —
there is no write-temporary-then-rename step. -/
theorem c8_counterexample :
    (masterKeyFile_save_trace "mysqlrouter.key" [([107], [118])]).head? =
      some (FsOp.openTrunc "mysqlrouter.key") ∧
    (masterKeyFile_save_trace "mysqlrouter.key" [([107], [118])]).all
      isNotRename = true := by
  constructor <;> rfl

lemma mkfEntryTrace_join_no_rename (entries : List MKFEntry) :
    ((entries.map mkfEntryTrace).flatten).all isNotRename = true := by
  induction entries with
  | nil => rfl
  | cons e t ih =>
    simp only [List.map_cons, List.flatten_cons, List.all_append, ih,
      Bool.and_true]
    rfl

/-- Claim C8 as amended: `MasterKeyFile::save` is not atomic — it truncates
and rewrites the target path in place, performing no rename — but on every
save the target's permissions are tightened (`make_file_private`)
immediately after opening and before any content is written. -/
theorem c8_save_tightens_before_write_amended (path : String)
    (entries : List MKFEntry) :
    (masterKeyFile_save_trace path entries).all isNotRename = true ∧
    (masterKeyFile_save_trace path entries).take 2 =
      [FsOp.openTrunc path, FsOp.makePrivate path] ∧
    ∀ d, FsOp.writeBytes d ∈ masterKeyFile_save_trace path entries →
      FsOp.writeBytes d ∈ (masterKeyFile_save_trace path entries).drop 2 := by
  refine ⟨?_, rfl, ?_⟩
  · simp only [masterKeyFile_save_trace, List.cons_append, List.nil_append,
      List.all_cons, List.all_append, mkfEntryTrace_join_no_rename]
    rfl
  · intro d hmem
    have htr : masterKeyFile_save_trace path entries =
        [FsOp.openTrunc path, FsOp.makePrivate path] ++
          (masterKeyFile_save_trace path entries).drop 2 := rfl
    rw [htr] at hmem
    rcases List.mem_append.1 hmem with h | h
    · simp at h
    · exact h

theorem c8_save_tightens_before_write_amended_witness :
    FsOp.writeBytes kMasterKeyFileSignatureBytes ∈
      (masterKeyFile_save_trace "mysqlrouter.key" []).drop 2 ∧
    (masterKeyFile_save_trace "mysqlrouter.key" []).take 2 =
      [FsOp.openTrunc "mysqlrouter.key", FsOp.makePrivate "mysqlrouter.key"] :=
  ⟨(c8_save_tightens_before_write_amended "mysqlrouter.key" []).2.2
      kMasterKeyFileSignatureBytes (by decide),
   (c8_save_tightens_before_write_amended "mysqlrouter.key" []).2.1⟩

/-! ## RandomGenerator (random_generator.cc)

`generate_identifier` draws each character uniformly from the alphabet
selected by the bit mask; `generate_strong_password` concatenates one
character from each character class, fills up with characters from the full
alphabet, and shuffles.  Randomness is supplied by oracles: `r k i` is the
value the distribution returns for the `i`-th character of the `k`-th
`generate_identifier` call (reduced modulo the alphabet size, as
`uniform_int_distribution(0, alphabet.length() - 1)` guarantees), and `s`
drives the `std::random_shuffle` permutation.  `std::random_shuffle`'s
concrete permutation is implementation-defined; it is modelled as a
selection shuffle driven by `s`, and the claims proved below hold for every
oracle, hence for every permutation the implementation may produce. -/

def kMinPasswordLength : Nat := 8

def kAlphabetDigits : List Char := "0123456789".toList

def kAlphabetLowercase : List Char := "abcdefghijklmnopqrstuvwxyz".toList

def kAlphabetUppercase : List Char := "ABCDEFGHIJKLMNOPQRSTUVWXYZ".toList

def kAlphabetSpecial : List Char := "~@#$^&*()-=+]\x7d[\x7b|;:.>,</?".toList

/-- Modelled from the spec: the `RandomGenerator::Alphabet*` bit-mask
constants are declared in `random_generator.h`, which is not among the
provided sources; they are distinct single bits combined by
`get_alphabet`, with `AlphabetAll` selecting all four classes (the only
property the claims rely on). -/
def AlphabetDigits : Nat := 1

def AlphabetLowercase : Nat := 2

def AlphabetUppercase : Nat := 4

def AlphabetSpecial : Nat := 8

def AlphabetAll : Nat := 15

/-- `get_alphabet`: concatenates the alphabets whose bits are set. -/
def get_alphabet (alphabet_mask : Nat) : List Char :=
  (if alphabet_mask &&& AlphabetDigits != 0 then kAlphabetDigits else []) ++
  (if alphabet_mask &&& AlphabetLowercase != 0 then kAlphabetLowercase else []) ++
  (if alphabet_mask &&& AlphabetUppercase != 0 then kAlphabetUppercase else []) ++
  (if alphabet_mask &&& AlphabetSpecial != 0 then kAlphabetSpecial else [])

/-- `RandomGenerator::generate_identifier`: an empty alphabet throws
`std::invalid_argument`; otherwise each of `length` characters is drawn
from the alphabet at a uniformly distributed index. -/
def generate_identifier (r : Nat → Nat) (length alphabet_mask : Nat) :
    Except String (List Char) :=
  let alphabet := get_alphabet alphabet_mask
  if alphabet.length < 1 then
    Except.error "Wrong alphabet mask provided for generate_identifier"
  else
    Except.ok ((List.range length).map
      (fun i => alphabet.getD (r i % alphabet.length) 'a'))

/-- The `std::random_shuffle` model: a selection shuffle picking the next
element at an oracle-chosen index.  `fuel` starts at the list length. -/
def shuffleGo (s : Nat → Nat) : Nat → Nat → List Char → List Char
  | 0, _, l => l
  | fuel + 1, i, l =>
    match l with
    | [] => []
    | x :: xs =>
      let pick := (x :: xs).getD (s i % (x :: xs).length) x
      pick :: shuffleGo s fuel (i + 1) ((x :: xs).erase pick)

/-- `std::random_shuffle(result.begin(), result.end())` driven by `s`. -/
def shuffleChars (s : Nat → Nat) (l : List Char) : List Char :=
  shuffleGo s l.length 0 l

/-- `RandomGenerator::generate_strong_password`: reject lengths below 8,
take one character from each class, fill the rest from the full alphabet,
and shuffle. -/
def generate_strong_password (r : Nat → Nat → Nat) (s : Nat → Nat)
    (length : Nat) : Except String (List Char) :=
  if length < kMinPasswordLength then
    Except.error "The password needs to be at least 8 charactes long"
  else do
    let d ← generate_identifier (r 0) 1 AlphabetDigits
    let lo ← generate_identifier (r 1) 1 AlphabetLowercase
    let up ← generate_identifier (r 2) 1 AlphabetUppercase
    let sp ← generate_identifier (r 3) 1 AlphabetSpecial
    let result := d ++ lo ++ up ++ sp
    let fill ← generate_identifier (r 4) (length - result.length) AlphabetAll
    return shuffleChars s (result ++ fill)

lemma list_getD_mem (l : List Char) (i : Nat) (d : Char) (h : i < l.length) :
    l.getD i d ∈ l := by
  rw [List.getD_eq_getElem l d h]
  exact List.getElem_mem h

lemma shuffleGo_perm (s : Nat → Nat) :
    ∀ fuel i l, (shuffleGo s fuel i l).Perm l := by
  intro fuel
  induction fuel with
  | zero => intro i l; exact List.Perm.refl l
  | succ n ih =>
    intro i l
    cases l with
    | nil => exact List.Perm.refl []
    | cons x xs =>
      have hmem : (x :: xs).getD (s i % (x :: xs).length) x ∈ x :: xs :=
        list_getD_mem _ _ _ (Nat.mod_lt _ (by simp))
      have hstep : shuffleGo s (n + 1) i (x :: xs) =
          (x :: xs).getD (s i % (x :: xs).length) x ::
            shuffleGo s n (i + 1)
              ((x :: xs).erase ((x :: xs).getD (s i % (x :: xs).length) x)) := rfl
      rw [hstep]
      exact ((ih _ _).cons _).trans (List.perm_cons_erase hmem).symm

lemma shuffleChars_perm (s : Nat → Nat) (l : List Char) :
    (shuffleChars s l).Perm l :=
  shuffleGo_perm s l.length 0 l

/-- Claim C9: for every outcome of the random source,
`generate_strong_password n` with `n < 8` throws `std::invalid_argument`,
and with `n >= 8` returns a password of length exactly `n` containing at
least one digit, one lowercase letter, one uppercase letter and one
special character. -/
theorem c9_generate_strong_password (r : Nat → Nat → Nat) (s : Nat → Nat)
    (n : Nat) :
    (n < 8 → ∃ msg, generate_strong_password r s n = Except.error msg) ∧
    (8 ≤ n → ∃ pw, generate_strong_password r s n = Except.ok pw ∧
      pw.length = n ∧
      (∃ c ∈ pw, c ∈ kAlphabetDigits) ∧
      (∃ c ∈ pw, c ∈ kAlphabetLowercase) ∧
      (∃ c ∈ pw, c ∈ kAlphabetUppercase) ∧
      (∃ c ∈ pw, c ∈ kAlphabetSpecial)) := by
  constructor
  · intro hlt
    refine ⟨"The password needs to be at least 8 charactes long", ?_⟩
    unfold generate_strong_password
    rw [if_pos (by unfold kMinPasswordLength; omega)]
  · intro h8
    have hge : ¬ n < kMinPasswordLength := by unfold kMinPasswordLength; omega
    have heq : generate_strong_password r s n =
        Except.ok (shuffleChars s
          (kAlphabetDigits.getD (r 0 0 % 10) 'a' ::
           kAlphabetLowercase.getD (r 1 0 % 26) 'a' ::
           kAlphabetUppercase.getD (r 2 0 % 26) 'a' ::
           kAlphabetSpecial.getD (r 3 0 % 25) 'a' ::
           (List.range (n - 4)).map
             (fun i => (get_alphabet AlphabetAll).getD
               (r 4 i % (get_alphabet AlphabetAll).length) 'a'))) := by
      unfold generate_strong_password
      rw [if_neg hge]
      rfl
    set pre := kAlphabetDigits.getD (r 0 0 % 10) 'a' ::
      kAlphabetLowercase.getD (r 1 0 % 26) 'a' ::
      kAlphabetUppercase.getD (r 2 0 % 26) 'a' ::
      kAlphabetSpecial.getD (r 3 0 % 25) 'a' ::
      (List.range (n - 4)).map
        (fun i => (get_alphabet AlphabetAll).getD
          (r 4 i % (get_alphabet AlphabetAll).length) 'a') with hpre
    have hperm := shuffleChars_perm s pre
    refine ⟨shuffleChars s pre, heq, ?_, ?_, ?_, ?_, ?_⟩
    · rw [hperm.length_eq, hpre]
      simp only [List.length_cons, List.length_map, List.length_range]
      omega
    · refine ⟨kAlphabetDigits.getD (r 0 0 % 10) 'a', ?_, ?_⟩
      · rw [hperm.mem_iff, hpre]
        exact List.mem_cons_self _ _
      · exact list_getD_mem _ _ _ (Nat.mod_lt _ (by decide))
    · refine ⟨kAlphabetLowercase.getD (r 1 0 % 26) 'a', ?_, ?_⟩
      · rw [hperm.mem_iff, hpre]
        exact List.mem_cons_of_mem _ (List.mem_cons_self _ _)
      · exact list_getD_mem _ _ _ (Nat.mod_lt _ (by decide))
    · refine ⟨kAlphabetUppercase.getD (r 2 0 % 26) 'a', ?_, ?_⟩
      · rw [hperm.mem_iff, hpre]
        exact List.mem_cons_of_mem _
          (List.mem_cons_of_mem _ (List.mem_cons_self _ _))
      · exact list_getD_mem _ _ _ (Nat.mod_lt _ (by decide))
    · refine ⟨kAlphabetSpecial.getD (r 3 0 % 25) 'a', ?_, ?_⟩
      · rw [hperm.mem_iff, hpre]
        exact List.mem_cons_of_mem _ (List.mem_cons_of_mem _
          (List.mem_cons_of_mem _ (List.mem_cons_self _ _)))
      · exact list_getD_mem _ _ _ (Nat.mod_lt _ (by decide))

theorem c9_generate_strong_password_witness :
    (7 < 8 → ∃ msg, generate_strong_password (fun _ _ => 0) (fun _ => 0) 7 =
      Except.error msg) ∧
    (8 ≤ 8 → ∃ pw, generate_strong_password (fun _ _ => 0) (fun _ => 0) 8 =
      Except.ok pw ∧ pw.length = 8 ∧
      (∃ c ∈ pw, c ∈ kAlphabetDigits) ∧
      (∃ c ∈ pw, c ∈ kAlphabetLowercase) ∧
      (∃ c ∈ pw, c ∈ kAlphabetUppercase) ∧
      (∃ c ∈ pw, c ∈ kAlphabetSpecial)) :=
  ⟨(c9_generate_strong_password (fun _ _ => 0) (fun _ => 0) 7).1,
   (c9_generate_strong_password (fun _ _ => 0) (fun _ => 0) 8).2⟩

end RouterModel
